import Mathlib

/-!
Verification of the SNAP protocol TypeScript reference implementation
(`src/reference/typescript/src/{identity,index,types}.ts`).

The development shallowly embeds the implementation:

* JavaScript structured values (the input of `canonicalizeObject`) become the
  inductive `JValue`; JavaScript objects are association lists whose key order
  is the insertion order, and a well-formed object has no duplicate keys.
* `canonicalizeObject` / `sortKeysRecursive` / `JSON.stringify` are embedded
  as executable functions.  JavaScript sorts object keys by UTF-16 code
  units; we use Lean's lexicographic `String` order.  The claims proved here
  depend only on the order being total, not on which total order it is.
  Number formatting of `JSON.stringify` is abstracted by `toString` on `Rat`.
* The Ed25519 primitive (library `tweetnacl`) is external to the repository,
  so it is modelled as a structure `Ed25519Scheme` packaging the key pair
  generator, detached signing and core verification together with the
  length/byte-range facts and the sign/verify correctness that the library
  provides.  The repository's own byte-level glue (base64, UTF-8, the
  try/catch in `verifySignature`) is embedded concretely.
* Impure reads (`new Date().toISOString()`, `nanoid()`, randomness) are
  passed in as explicit arguments, and `z.string().url()` (WHATWG URL
  parsing, external) is passed in as a `String → Bool` argument.
-/

namespace SNAP

/-- JavaScript structured values (JSON-compatible): the domain of
`canonicalizeObject`.  Objects are association lists in insertion order. -/
inductive JValue where
  | null
  | bool (b : Bool)
  | num (q : Rat)
  | str (s : String)
  | arr (xs : List JValue)
  | obj (fields : List (String × JValue))

/-- Key comparison used when sorting object entries: compare keys only,
mirroring `Object.keys(obj).sort()`. -/
def keyLe (p q : String × JValue) : Prop := p.1 ≤ q.1

instance : DecidableRel keyLe := fun p q => inferInstanceAs (Decidable (p.1 ≤ q.1))

instance : IsTotal (String × JValue) keyLe := ⟨fun p q => le_total p.1 q.1⟩

instance : IsTrans (String × JValue) keyLe := ⟨fun _ _ _ h h' => le_trans h h'⟩

/-- Sorting of object entries by key, as done by `Object.keys(obj).sort()`
followed by rebuilding the object in that key order. -/
def sortFields (l : List (String × JValue)) : List (String × JValue) :=
  l.insertionSort keyLe

mutual

/-- Embedding of `sortKeysRecursive` (identity.ts:148-165): recursively sort
all object keys; arrays keep their element order.  The source sorts the key
list first and then recurses into each value; since the sort compares keys
only and the recursion leaves keys unchanged, recursing first and then
sorting (as here, to keep the recursion structural) yields the same value. -/
def sortKeysRecursive : JValue → JValue
  | JValue.null => JValue.null
  | JValue.bool b => JValue.bool b
  | JValue.num q => JValue.num q
  | JValue.str s => JValue.str s
  | JValue.arr xs => JValue.arr (sortKeysList xs)
  | JValue.obj l => JValue.obj (sortFields (sortKeysFields l))

/-- Pointwise `sortKeysRecursive` over an array's elements. -/
def sortKeysList : List JValue → List JValue
  | [] => []
  | x :: xs => sortKeysRecursive x :: sortKeysList xs

/-- Pointwise `sortKeysRecursive` over an object's entry values. -/
def sortKeysFields : List (String × JValue) → List (String × JValue)
  | [] => []
  | (k, v) :: t => (k, sortKeysRecursive v) :: sortKeysFields t

end

/-- JSON string escaping as performed by `JSON.stringify`. -/
def escapeChar (c : Char) : List Char :=
  if c = '"' then ['\\', '"']
  else if c = '\\' then ['\\', '\\']
  else if c = '\n' then ['\\', 'n']
  else if c = '\r' then ['\\', 'r']
  else if c = '\t' then ['\\', 't']
  else if c.toNat = 8 then ['\\', 'b']
  else if c.toNat = 12 then ['\\', 'f']
  else if c.toNat < 32 then
    let hx := Nat.toDigits 16 c.toNat
    ['\\', 'u'] ++ List.replicate (4 - hx.length) '0' ++ hx
  else [c]

/-- Quote and escape a string, as `JSON.stringify` does for strings. -/
def jsonQuote (s : String) : String :=
  "\"" ++ String.mk (s.toList.flatMap escapeChar) ++ "\""

mutual

/-- Embedding of `JSON.stringify` on `JValue` (no extraneous whitespace). -/
def stringify : JValue → String
  | JValue.null => "null"
  | JValue.bool true => "true"
  | JValue.bool false => "false"
  | JValue.num q => toString q
  | JValue.str s => jsonQuote s
  | JValue.arr xs => "[" ++ String.intercalate "," (stringifyList xs) ++ "]"
  | JValue.obj l => "\x7b" ++ String.intercalate "," (stringifyFields l) ++ "\x7d"

/-- Stringify each array element. -/
def stringifyList : List JValue → List String
  | [] => []
  | x :: xs => stringify x :: stringifyList xs

/-- Stringify each object entry as `"key":value`. -/
def stringifyFields : List (String × JValue) → List String
  | [] => []
  | (k, v) :: t => (jsonQuote k ++ ":" ++ stringify v) :: stringifyFields t

end

/-- Embedding of `canonicalizeObject` (identity.ts:142-146): sort keys
recursively, then stringify. -/
def canonicalizeObject (v : JValue) : String :=
  stringify (sortKeysRecursive v)

/-- Boolean test that a key list has no duplicates (JavaScript objects never
have duplicate keys). -/
def nodupKeys : List String → Bool
  | [] => true
  | k :: t => !(t.contains k) && nodupKeys t

mutual

/-- Well-formedness of a `JValue` as the image of a JavaScript value: every
object in it has pairwise distinct keys. -/
def wfJ : JValue → Bool
  | JValue.null => true
  | JValue.bool _ => true
  | JValue.num _ => true
  | JValue.str _ => true
  | JValue.arr xs => wfJList xs
  | JValue.obj l => nodupKeys (l.map Prod.fst) && wfJFields l

/-- Well-formedness of every element of an array. -/
def wfJList : List JValue → Bool
  | [] => true
  | x :: xs => wfJ x && wfJList xs

/-- Well-formedness of every value of an object's entries. -/
def wfJFields : List (String × JValue) → Bool
  | [] => true
  | (_, v) :: t => wfJ v && wfJFields t

end

/-- Two values are related by `Reorder` when one is obtained from the other by
permuting object key lists at any nesting level (arrays keep their element
order).  The `obj` constructor first reorders recursively inside each value
(the array of entry values is related pointwise, keys unchanged) and then
permutes the entry list itself. -/
inductive Reorder : JValue → JValue → Prop where
  | null : Reorder JValue.null JValue.null
  | bool (b : Bool) : Reorder (JValue.bool b) (JValue.bool b)
  | num (q : Rat) : Reorder (JValue.num q) (JValue.num q)
  | str (s : String) : Reorder (JValue.str s) (JValue.str s)
  | arrNil : Reorder (JValue.arr []) (JValue.arr [])
  | arrCons {x y : JValue} {xs ys : List JValue} :
      Reorder x y → Reorder (JValue.arr xs) (JValue.arr ys) →
      Reorder (JValue.arr (x :: xs)) (JValue.arr (y :: ys))
  | obj {l₁ l₂' l₂ : List (String × JValue)} :
      l₁.map Prod.fst = l₂'.map Prod.fst →
      Reorder (JValue.arr (l₁.map Prod.snd)) (JValue.arr (l₂'.map Prod.snd)) →
      l₂'.Perm l₂ →
      Reorder (JValue.obj l₁) (JValue.obj l₂)

theorem sortKeysList_eq_map (xs : List JValue) :
    sortKeysList xs = xs.map sortKeysRecursive := by
  induction xs with
  | nil => rfl
  | cons x t ih => rw [sortKeysList, List.map_cons, ih]

theorem sortKeysFields_eq_map (l : List (String × JValue)) :
    sortKeysFields l = l.map (fun p => (p.1, sortKeysRecursive p.2)) := by
  induction l with
  | nil => rfl
  | cons p t ih => obtain ⟨k, v⟩ := p; rw [sortKeysFields, List.map_cons, ih]

theorem nodupKeys_iff (ks : List String) : nodupKeys ks = true ↔ ks.Nodup := by
  induction ks with
  | nil => simp [nodupKeys]
  | cons k t ih => simp [nodupKeys, ih, List.nodup_cons, List.elem_iff]

theorem wfJList_of_wfJFields (l : List (String × JValue)) (h : wfJFields l = true) :
    wfJList (l.map Prod.snd) = true := by
  induction l with
  | nil => simp [wfJList]
  | cons p t ih =>
      obtain ⟨k, v⟩ := p
      rw [wfJFields, Bool.and_eq_true] at h
      rw [List.map_cons, wfJList, Bool.and_eq_true]
      exact ⟨h.1, ih h.2⟩

theorem map_pair_congr : ∀ l₁ l₂ : List (String × JValue),
    l₁.map Prod.fst = l₂.map Prod.fst →
    (l₁.map Prod.snd).map sortKeysRecursive = (l₂.map Prod.snd).map sortKeysRecursive →
    l₁.map (fun p => (p.1, sortKeysRecursive p.2)) =
      l₂.map (fun p => (p.1, sortKeysRecursive p.2))
  | [], [], _, _ => rfl
  | [], _ :: _, h1, _ => by simp at h1
  | _ :: _, [], h1, _ => by simp at h1
  | p :: t₁, q :: t₂, h1, h2 => by
      simp only [List.map_cons, List.cons.injEq] at h1 h2 ⊢
      exact ⟨by rw [h1.1, h2.1], map_pair_congr t₁ t₂ h1.2 h2.2⟩

theorem eq_of_sorted_perm_nodupKeys :
    ∀ {a b : List (String × JValue)}, a.Perm b →
      a.Sorted keyLe → b.Sorted keyLe → (a.map Prod.fst).Nodup → a = b := by
  intro a
  induction a with
  | nil => intro b hp _ _ _; exact (hp.nil_eq).symm ▸ rfl
  | cons p t ih =>
      intro b hp hsa hsb hnd
      cases b with
      | nil => exact absurd hp.symm.nil_eq (by simp)
      | cons q t₂ =>
          have hpq : p = q := by
            have hpmem : p ∈ q :: t₂ := hp.mem_iff.mp (List.mem_cons_self p t)
            have hqmem : q ∈ p :: t := hp.symm.mem_iff.mp (List.mem_cons_self q t₂)
            rcases List.mem_cons.mp hpmem with h | hpin
            · exact h
            rcases List.mem_cons.mp hqmem with h | hqin
            · exact h.symm
            have h1 : p.1 ≤ q.1 := (List.sorted_cons.mp hsa).1 q hqin
            have h2 : q.1 ≤ p.1 := (List.sorted_cons.mp hsb).1 p hpin
            have hk : p.1 = q.1 := le_antisymm h1 h2
            have : p.1 ∉ t.map Prod.fst := (List.nodup_cons.mp (by simpa using hnd)).1
            exact absurd (hk ▸ List.mem_map_of_mem Prod.fst hqin) this
          subst hpq
          have ht : t.Perm t₂ := hp.cons_inv
          have := ih ht (List.sorted_cons.mp hsa).2 (List.sorted_cons.mp hsb).2
            (by simpa using (List.nodup_cons.mp (by simpa using hnd)).2)
          rw [this]

theorem sortFields_perm_eq {l₁ l₂ : List (String × JValue)}
    (hp : l₁.Perm l₂) (hnd : (l₁.map Prod.fst).Nodup) :
    sortFields l₁ = sortFields l₂ := by
  have h1 : (sortFields l₁).Perm (sortFields l₂) :=
    ((l₁.perm_insertionSort keyLe).trans hp).trans (l₂.perm_insertionSort keyLe).symm
  have hmap : ((sortFields l₁).map Prod.fst).Perm (l₁.map Prod.fst) :=
    (l₁.perm_insertionSort keyLe).map Prod.fst
  exact eq_of_sorted_perm_nodupKeys h1
    (List.sorted_insertionSort keyLe l₁) (List.sorted_insertionSort keyLe l₂)
    (hmap.nodup_iff.mpr hnd)

theorem sortKeysRecursive_reorder {a b : JValue} (h : Reorder a b)
    (hwf : wfJ a = true) : sortKeysRecursive a = sortKeysRecursive b := by
  induction h with
  | null => rfl
  | bool b => rfl
  | num q => rfl
  | str s => rfl
  | arrNil => rfl
  | arrCons hx hxs ihx ihxs =>
      rw [wfJ, wfJList, Bool.and_eq_true] at hwf
      have h1 := ihx hwf.1
      have h2 := JValue.arr.inj (ihxs (by rw [wfJ]; exact hwf.2))
      rw [sortKeysRecursive, sortKeysRecursive, sortKeysList, sortKeysList, h1, h2]
  | obj hkeys harr hperm ih =>
      rename_i l₁ l₂' l₂
      rw [wfJ, Bool.and_eq_true] at hwf
      have hnk : (l₁.map Prod.fst).Nodup := (nodupKeys_iff _).mp hwf.1
      have harrs : sortKeysList (l₁.map Prod.snd) = sortKeysList (l₂'.map Prod.snd) :=
        JValue.arr.inj (ih (by rw [wfJ]; exact wfJList_of_wfJFields l₁ hwf.2))
      have hm : (l₁.map Prod.snd).map sortKeysRecursive
          = (l₂'.map Prod.snd).map sortKeysRecursive := by
        rw [← sortKeysList_eq_map, ← sortKeysList_eq_map, harrs]
      have hfields : sortKeysFields l₁ = sortKeysFields l₂' := by
        rw [sortKeysFields_eq_map, sortKeysFields_eq_map]
        exact map_pair_congr l₁ l₂' hkeys hm
      have hperm2 : (sortKeysFields l₂').Perm (sortKeysFields l₂) := by
        rw [sortKeysFields_eq_map, sortKeysFields_eq_map]
        exact hperm.map _
      have hnk2 : ((sortKeysFields l₂').map Prod.fst).Nodup := by
        have hkk : (sortKeysFields l₂').map Prod.fst = l₂'.map Prod.fst := by
          rw [sortKeysFields_eq_map, List.map_map]; rfl
        rw [hkk, ← hkeys]
        exact hnk
      rw [sortKeysRecursive, sortKeysRecursive, hfields, sortFields_perm_eq hperm2 hnk2]

/-- Claim C2: for every pair of structured values that are structurally equal
but have their object keys listed in different orders (at any nesting level,
including objects inside arrays), `canonicalizeObject` returns the same string
for both; canonicalization is deterministic and independent of key insertion
order, while array element order is preserved (the `Reorder` relation keeps
arrays pointwise related and only permutes object entry lists). -/
theorem canonicalizeObject_deterministic {a b : JValue}
    (hwf : wfJ a = true) (hro : Reorder a b) :
    canonicalizeObject a = canonicalizeObject b := by
  unfold canonicalizeObject
  rw [sortKeysRecursive_reorder hro hwf]

/-- Concrete value with keys out of order at two nesting levels. -/
def c2Left : JValue :=
  JValue.obj [("b", JValue.num 1),
              ("a", JValue.obj [("y", JValue.str "u"), ("x", JValue.null)])]

/-- The same logical value with both object key lists permuted. -/
def c2Right : JValue :=
  JValue.obj [("a", JValue.obj [("x", JValue.null), ("y", JValue.str "u")]),
              ("b", JValue.num 1)]

/-- Witness for claim C2 at a concrete reordered pair. -/
theorem canonicalizeObject_deterministic_witness :
    wfJ c2Left = true ∧ Reorder c2Left c2Right ∧
      canonicalizeObject c2Left = canonicalizeObject c2Right := by
  have hwf : wfJ c2Left = true := by
    simp [c2Left, wfJ, wfJList, wfJFields, nodupKeys]
  have hin : Reorder (JValue.obj [("y", JValue.str "u"), ("x", JValue.null)])
      (JValue.obj [("x", JValue.null), ("y", JValue.str "u")]) :=
    @Reorder.obj
      [("y", JValue.str "u"), ("x", JValue.null)]
      [("y", JValue.str "u"), ("x", JValue.null)]
      [("x", JValue.null), ("y", JValue.str "u")]
      rfl
      (Reorder.arrCons (Reorder.str "u")
        (Reorder.arrCons Reorder.null Reorder.arrNil))
      (List.Perm.swap ("x", JValue.null) ("y", JValue.str "u") [])
  have hro : Reorder c2Left c2Right :=
    @Reorder.obj
      [("b", JValue.num 1),
       ("a", JValue.obj [("y", JValue.str "u"), ("x", JValue.null)])]
      [("b", JValue.num 1),
       ("a", JValue.obj [("x", JValue.null), ("y", JValue.str "u")])]
      [("a", JValue.obj [("x", JValue.null), ("y", JValue.str "u")]),
       ("b", JValue.num 1)]
      rfl
      (Reorder.arrCons (Reorder.num 1) (Reorder.arrCons hin Reorder.arrNil))
      (List.Perm.swap
        ("a", JValue.obj [("x", JValue.null), ("y", JValue.str "u")])
        ("b", JValue.num 1) [])
  exact ⟨hwf, hro, canonicalizeObject_deterministic hwf hro⟩

/-- The base64 alphabet character for a sextet value. -/
def b64CharOf (n : Nat) : Char :=
  if n < 26 then Char.ofNat (65 + n)
  else if n < 52 then Char.ofNat (97 + (n - 26))
  else if n < 62 then Char.ofNat (48 + (n - 52))
  else if n = 62 then '+' else '/'

/-- The sextet value of a base64 alphabet character; `none` for characters
outside the alphabet (`Buffer.from(s, 'base64')` skips those). -/
def b64ValOf (c : Char) : Option Nat :=
  if 'A' ≤ c ∧ c ≤ 'Z' then some (c.toNat - 65)
  else if 'a' ≤ c ∧ c ≤ 'z' then some (c.toNat - 97 + 26)
  else if '0' ≤ c ∧ c ≤ '9' then some (c.toNat - 48 + 52)
  else if c = '+' then some 62
  else if c = '/' then some 63
  else none

/-- Standard base64 encoding of a byte list, three bytes per four characters
with `=` padding, as `Buffer.from(bytes).toString('base64')` produces. -/
def encodeChunks : List Nat → List Char
  | [] => []
  | [b0] => [b64CharOf (b0 / 4), b64CharOf (b0 % 4 * 16), '=', '=']
  | [b0, b1] => [b64CharOf (b0 / 4), b64CharOf (b0 % 4 * 16 + b1 / 16),
                 b64CharOf (b1 % 16 * 4), '=']
  | b0 :: b1 :: b2 :: rest =>
      b64CharOf (b0 / 4) :: b64CharOf (b0 % 4 * 16 + b1 / 16) ::
      b64CharOf (b1 % 16 * 4 + b2 / 64) :: b64CharOf (b2 % 64) :: encodeChunks rest

/-- Embedding of `encodeBase64` (identity.ts:109-111); bytes are `Nat`s below
256. -/
def encodeBase64 (bytes : List Nat) : String :=
  String.mk (encodeChunks bytes)

/-- Lenient base64 decoding of a sextet stream, as Node's
`Buffer.from(_, 'base64')` does: four sextets yield three bytes, a trailing
group of three yields two, of two yields one, of one yields none. -/
def decodeSextets : List Nat → List Nat
  | c0 :: c1 :: c2 :: c3 :: rest =>
      (c0 * 4 + c1 / 16) :: (c1 % 16 * 16 + c2 / 4) :: (c2 % 4 * 64 + c3) ::
        decodeSextets rest
  | [c0, c1] => [c0 * 4 + c1 / 16]
  | [c0, c1, c2] => [c0 * 4 + c1 / 16, c1 % 16 * 16 + c2 / 4]
  | _ => []

/-- Embedding of `decodeBase64` (identity.ts:116-118): Node's decoder never
throws; characters outside the alphabet (including `=` padding) are skipped. -/
def decodeBase64 (s : String) : List Nat :=
  decodeSextets (s.toList.filterMap b64ValOf)

/-- UTF-8 encoding of one character, as `TextEncoder().encode` produces. -/
def utf8Char (c : Char) : List Nat :=
  let n := c.toNat
  if n < 128 then [n]
  else if n < 2048 then [192 + n / 64, 128 + n % 64]
  else if n < 65536 then [224 + n / 4096, 128 + n / 64 % 64, 128 + n % 64]
  else [240 + n / 262144, 128 + n / 4096 % 64, 128 + n / 64 % 64, 128 + n % 64]

/-- UTF-8 encoding of a string (`new TextEncoder().encode(message)`). -/
def encodeUtf8 (s : String) : List Nat :=
  s.toList.flatMap utf8Char

/-- Interface of the external Ed25519 primitive (`tweetnacl`), which is not
part of this repository: a key pair generator over an injected random seed,
detached signing, and core verification, together with the length, byte-range
and correctness facts the library guarantees (`nacl.sign.keyPair`,
`nacl.sign.detached`, `nacl.sign.detached.verify`). -/
structure Ed25519Scheme where
  keyPair : Nat → List Nat × List Nat
  signDetached : List Nat → List Nat → List Nat
  verifyDetached : List Nat → List Nat → List Nat → Bool
  keyPair_pk_length : ∀ s, (keyPair s).1.length = 32
  keyPair_pk_bytes : ∀ s, ∀ x ∈ (keyPair s).1, x < 256
  keyPair_sk_length : ∀ s, (keyPair s).2.length = 64
  sig_length : ∀ m sk, (signDetached m sk).length = 64
  sig_bytes : ∀ m sk, ∀ x ∈ signDetached m sk, x < 256
  sign_verify : ∀ s m,
    verifyDetached m (signDetached m (keyPair s).2) (keyPair s).1 = true

/-- `nacl.sign.detached.verify` including its argument size checks: tweetnacl
throws on a wrong-size signature or public key, modelled as `Except.error`. -/
def naclVerifyDetached (E : Ed25519Scheme) (msg sig pk : List Nat) :
    Except String Bool :=
  if sig.length ≠ 64 then Except.error "bad signature size"
  else if pk.length ≠ 32 then Except.error "bad public key size"
  else Except.ok (E.verifyDetached msg sig pk)

/-- Embedding of `signMessage` (identity.ts:65-69). -/
def signMessage (E : Ed25519Scheme) (message : String) (privateKey : List Nat) :
    String :=
  encodeBase64 (E.signDetached (encodeUtf8 message) privateKey)

/-- Embedding of `verifySignature` (identity.ts:74-88): decode both base64
inputs leniently, call the primitive, and collapse any thrown error to
`false` (the `try/catch` in the source). -/
def verifySignature (E : Ed25519Scheme)
    (message signature publicKey : String) : Bool :=
  match naclVerifyDetached E (encodeUtf8 message)
      (decodeBase64 signature) (decodeBase64 publicKey) with
  | Except.ok b => b
  | Except.error _ => false

theorem b64ValOf_b64CharOf : ∀ n < 64, b64ValOf (b64CharOf n) = some n := by
  decide

theorem b64ValOf_pad : b64ValOf '=' = none := by decide

theorem decodeSextets_encodeChunks :
    ∀ l : List Nat, (∀ x ∈ l, x < 256) →
      decodeSextets ((encodeChunks l).filterMap b64ValOf) = l := by
  intro l
  induction l using encodeChunks.induct with
  | case1 => intro _; rfl
  | case2 b0 =>
      intro hb
      have h0 := hb b0 (by simp)
      rw [encodeChunks]
      simp only [List.filterMap_cons, b64ValOf_pad,
        b64ValOf_b64CharOf _ (by omega : b0 / 4 < 64),
        b64ValOf_b64CharOf _ (by omega : b0 % 4 * 16 < 64), List.filterMap_nil]
      rw [decodeSextets]
      simp only [List.cons.injEq, and_true]
      omega
  | case3 b0 b1 =>
      intro hb
      have h0 := hb b0 (by simp)
      have h1 := hb b1 (by simp)
      rw [encodeChunks]
      simp only [List.filterMap_cons, b64ValOf_pad,
        b64ValOf_b64CharOf _ (by omega : b0 / 4 < 64),
        b64ValOf_b64CharOf _ (by omega : b0 % 4 * 16 + b1 / 16 < 64),
        b64ValOf_b64CharOf _ (by omega : b1 % 16 * 4 < 64), List.filterMap_nil]
      rw [decodeSextets]
      simp only [List.cons.injEq, and_true]
      omega
  | case4 b0 b1 b2 rest ih =>
      intro hb
      have h0 := hb b0 (by simp)
      have h1 := hb b1 (by simp)
      have h2 := hb b2 (by simp)
      rw [encodeChunks]
      simp only [List.filterMap_cons,
        b64ValOf_b64CharOf _ (by omega : b0 / 4 < 64),
        b64ValOf_b64CharOf _ (by omega : b0 % 4 * 16 + b1 / 16 < 64),
        b64ValOf_b64CharOf _ (by omega : b1 % 16 * 4 + b2 / 64 < 64),
        b64ValOf_b64CharOf _ (by omega : b2 % 64 < 64)]
      rw [decodeSextets]
      simp only [List.cons.injEq]
      refine ⟨by omega, by omega, by omega, ?_⟩
      exact ih (fun x hx => hb x (by simp [hx]))

theorem decodeBase64_encodeBase64 (l : List Nat) (hb : ∀ x ∈ l, x < 256) :
    decodeBase64 (encodeBase64 l) = l := by
  unfold decodeBase64 encodeBase64
  exact decodeSextets_encodeChunks l hb

/-- Lowercase hex digit, as `byte.toString(16)` produces. -/
def hexDigit (n : Nat) : Char :=
  if n < 10 then Char.ofNat (48 + n) else Char.ofNat (87 + n)

/-- Two lowercase hex digits of a byte (`toString(16).padStart(2, '0')`). -/
def byteToHex (b : Nat) : List Char :=
  [hexDigit (b / 16 % 16), hexDigit (b % 16)]

/-- RFC 4122 version/variant bit fixing of `generateUUID` (identity.ts:34-35):
`bytes[6] = (bytes[6] & 0x0f) | 0x40` and `bytes[8] = (bytes[8] & 0x3f) | 0x80`. -/
def setUuidBits (bytes : List Nat) : List Nat :=
  (bytes.set 6 (bytes.getD 6 0 % 16 + 64)).set 8
    ((bytes.set 6 (bytes.getD 6 0 % 16 + 64)).getD 8 0 % 64 + 128)

/-- Embedding of `generateUUID` (identity.ts:30-46); the 16 random bytes are
an explicit argument. -/
def generateUUID (bytes : List Nat) : String :=
  let hex := (setUuidBits bytes).flatMap byteToHex
  String.mk (hex.take 8) ++ "-" ++ String.mk ((hex.drop 8).take 4) ++ "-" ++
    String.mk ((hex.drop 12).take 4) ++ "-" ++ String.mk ((hex.drop 16).take 4)
    ++ "-" ++ String.mk ((hex.drop 20).take 12)

/-- Embedding of the `AgentID` shape (types.ts:20-24); the TS field `from` of
messages may also be a `UserID`, see `MsgParty` below. -/
structure AgentID where
  id : String
  publicKey : Option String := none
  registry : Option String := none
deriving DecidableEq

/-- Result record of `generateAgentIdentity` (identity.ts:9-25). -/
structure GeneratedIdentity where
  identity : AgentID
  privateKey : List Nat
  publicKey : List Nat

/-- Embedding of `generateAgentIdentity` (identity.ts:9-25); the Ed25519
primitive, its random seed and the 16 UUID bytes are explicit arguments. -/
def generateAgentIdentity (E : Ed25519Scheme) (seed : Nat)
    (uuidBytes : List Nat) : GeneratedIdentity :=
  let kp := E.keyPair seed
  { identity := { id := "snap:agent:" ++ generateUUID uuidBytes,
                  publicKey := some (encodeBase64 kp.1) },
    privateKey := kp.2,
    publicKey := kp.1 }

/-- Claim C3: for every message string, signature string and public-key string
(including malformed base64, wrong-length keys, wrong-length signatures and
non-matching payloads), `verifySignature` returns a boolean and never throws:
its value is exactly "the decoded signature has 64 bytes, the decoded key has
32 bytes, and the primitive accepts" — so every malformed or mismatched input
yields `false`, the thrown size errors of the primitive being caught. -/
theorem verifySignature_total (E : Ed25519Scheme)
    (message signature publicKey : String) :
    verifySignature E message signature publicKey =
      (decide ((decodeBase64 signature).length = 64) &&
       decide ((decodeBase64 publicKey).length = 32) &&
       E.verifyDetached (encodeUtf8 message) (decodeBase64 signature)
         (decodeBase64 publicKey)) := by
  unfold verifySignature naclVerifyDetached
  by_cases h1 : (decodeBase64 signature).length = 64 <;>
    by_cases h2 : (decodeBase64 publicKey).length = 32 <;>
    simp [h1, h2]

/-- Claim C4: for every generated identity and every message string `m`,
signing `m` with the private key and verifying against the base64 of the
matching public key returns `true`. -/
theorem signMessage_verifySignature_roundtrip (E : Ed25519Scheme) (seed : Nat)
    (uuidBytes : List Nat) (m : String) :
    verifySignature E m
      (signMessage E m (generateAgentIdentity E seed uuidBytes).privateKey)
      (encodeBase64 (generateAgentIdentity E seed uuidBytes).publicKey)
      = true := by
  have hsig : decodeBase64 (encodeBase64
      (E.signDetached (encodeUtf8 m) (E.keyPair seed).2))
      = E.signDetached (encodeUtf8 m) (E.keyPair seed).2 :=
    decodeBase64_encodeBase64 _ (E.sig_bytes _ _)
  have hpk : decodeBase64 (encodeBase64 (E.keyPair seed).1) = (E.keyPair seed).1 :=
    decodeBase64_encodeBase64 _ (E.keyPair_pk_bytes seed)
  simp only [generateAgentIdentity, signMessage, verifySignature,
    naclVerifyDetached, hsig, hpk, E.sig_length, E.keyPair_pk_length]
  simp [E.sign_verify]

/-- A concrete (toy, insecure) signature scheme satisfying the `Ed25519Scheme`
interface, used to instantiate the generic theorems at computable inputs. -/
def toyScheme : Ed25519Scheme where
  keyPair s := (List.replicate 32 ((s + 1) % 256),
    List.replicate 32 (s % 256) ++ List.replicate 32 ((s + 1) % 256))
  signDetached m sk := List.replicate 64 ((m.sum + (sk.drop 32).sum) % 256)
  verifyDetached m sig pk := sig == List.replicate 64 ((m.sum + pk.sum) % 256)
  keyPair_pk_length s := by simp
  keyPair_pk_bytes s := by
    intro x hx
    rw [List.eq_of_mem_replicate hx]
    omega
  keyPair_sk_length s := by simp
  sig_length m sk := by simp
  sig_bytes m sk := by
    intro x hx
    rw [List.eq_of_mem_replicate hx]
    omega
  sign_verify s m := by
    have hdrop : (List.replicate 32 (s % 256) ++
        List.replicate 32 ((s + 1) % 256)).drop 32
        = List.replicate 32 ((s + 1) % 256) := by
      rw [List.drop_append_of_le_length (by simp)]
      simp
    simp [hdrop]

/-- Witness for claim C3: the characterization applied at a concrete malformed
input ("AAAA" decodes to 3 bytes, not a 64-byte signature), evaluating to
`false` rather than an error. -/
theorem verifySignature_total_witness :
    verifySignature toyScheme "hello" "AAAA" "AAAA" = false := by
  rw [verifySignature_total]
  decide

/-- Witness for claim C4: the round trip applied at a concrete seed, UUID
byte list and message. -/
theorem signMessage_verifySignature_roundtrip_witness :
    verifySignature toyScheme "hello"
      (signMessage toyScheme "hello"
        (generateAgentIdentity toyScheme 7 [] ).privateKey)
      (encodeBase64 (generateAgentIdentity toyScheme 7 []).publicKey) = true :=
  signMessage_verifySignature_roundtrip toyScheme 7 [] "hello"

/-- Text part format enum (types.ts:37). -/
inductive TextFormat where
  | plain
  | markdown
  | html
deriving DecidableEq

/-- Text part encoding enum (types.ts:35). -/
inductive TextEncodingOpt where
  | utf8
  | base64
deriving DecidableEq

/-- Data part format enum (types.ts:49). -/
inductive DataFormat where
  | json
  | xml
  | yaml
deriving DecidableEq

/-- Payment status enum (types.ts:156). -/
inductive PaymentStatus where
  | pending
  | authorized
  | executed
  | failed
deriving DecidableEq

/-- Typed metadata of a text part (types.ts:36-39); the `catchall` bucket for
unknown extra keys is not modelled (the builder never produces extras). -/
structure TextMeta where
  format : Option TextFormat := none
  language : Option String := none
deriving DecidableEq

/-- Text part (types.ts:32-40). -/
structure TextPart where
  content : String
  encoding : Option TextEncodingOpt := none
  metadata : Option TextMeta := none
deriving DecidableEq

/-- Typed metadata of a data part (types.ts:48-51). -/
structure DataMeta where
  format : Option DataFormat := none
  encoding : Option String := none

/-- Data part (types.ts:44-52); the content is an arbitrary record. -/
structure DataPart where
  content : List (String × JValue)
  schema : Option (List (String × JValue)) := none
  metadata : Option DataMeta := none

/-- File part content (types.ts:58-67). -/
structure FileContent where
  uri : Option String := none
  bytes : Option String := none
  name : String
  mimeType : String
  size : Option Rat := none
  hash : Option String := none

/-- File part metadata (types.ts:68-70). -/
structure FileMeta where
  description : Option String := none

/-- File part (types.ts:56-71). -/
structure FilePart where
  content : FileContent
  metadata : Option FileMeta := none

/-- Image part content (types.ts:77-86). -/
structure ImageContent where
  uri : Option String := none
  bytes : Option String := none
  mimeType : String
  width : Option Rat := none
  height : Option Rat := none
  alt : Option String := none

/-- Image part metadata (types.ts:87-89). -/
structure ImageMeta where
  caption : Option String := none

/-- Image part (types.ts:75-90). -/
structure ImagePart where
  content : ImageContent
  metadata : Option ImageMeta := none

/-- Audio part content (types.ts:96-104). -/
structure AudioContent where
  uri : Option String := none
  bytes : Option String := none
  mimeType : String
  duration : Option Rat := none
  sampleRate : Option Rat := none

/-- Audio part metadata (types.ts:105-108). -/
structure AudioMeta where
  title : Option String := none
  artist : Option String := none

/-- Audio part (types.ts:94-109). -/
structure AudioPart where
  content : AudioContent
  metadata : Option AudioMeta := none

/-- Video part content (types.ts:115-125). -/
structure VideoContent where
  uri : Option String := none
  bytes : Option String := none
  mimeType : String
  duration : Option Rat := none
  width : Option Rat := none
  height : Option Rat := none
  frameRate : Option Rat := none

/-- Video part metadata (types.ts:126-129). -/
structure VideoMeta where
  title : Option String := none
  description : Option String := none

/-- Video part (types.ts:113-130). -/
structure VideoPart where
  content : VideoContent
  metadata : Option VideoMeta := none

/-- Message part: tagged union discriminated by `type` (types.ts:134-141). -/
inductive Part where
  | text (p : TextPart)
  | data (p : DataPart)
  | file (p : FilePart)
  | image (p : ImagePart)
  | audio (p : AudioPart)
  | video (p : VideoPart)

/-- User identity reference (types.ts:7-12); `publicKey` is required. -/
structure UserID where
  id : String
  publicKey : String
  name : Option String := none
  metadata : Option (List (String × JValue)) := none

/-- The union `AgentID | UserID` used for message endpoints (types.ts:168). -/
inductive MsgParty where
  | agent (a : AgentID)
  | user (u : UserID)

/-- Payment attached to a message (types.ts:149-157). -/
structure Payment where
  amount : Rat
  currency : String
  «from» : MsgParty
  «to» : MsgParty
  reference : Option String := none
  memo : Option String := none
  status : Option PaymentStatus := none

/-- Core message shape (types.ts:165-176).  The builder's internal
`Partial<SNAPMessage>` state always has `id`, `version`, `from`, `timestamp`
and `parts` initialized (index.ts:96-104), so the same structure serves as
the builder state; an absent `signature` key is `none`. -/
structure SNAPMessage where
  id : String
  version : String
  «from» : MsgParty
  «to» : Option MsgParty := none
  timestamp : String
  parts : List Part
  context : Option String := none
  payment : Option Payment := none
  metadata : Option (List (String × JValue)) := none
  signature : Option String := none

/-- Lowercase hex digit test for the agent/user id regexes. -/
def isHexLower (c : Char) : Bool :=
  ('0' ≤ c && c ≤ '9') || ('a' ≤ c && c ≤ 'f')

/-- Consume exactly `n` lowercase hex characters, returning the rest. -/
def hexRun : Nat → List Char → Option (List Char)
  | 0, rest => some rest
  | _ + 1, [] => none
  | n + 1, c :: rest => if isHexLower c then hexRun n rest else none

/-- Consume one expected character. -/
def expectChar (c : Char) : List Char → Option (List Char)
  | x :: r => if x = c then some r else none
  | [] => none

/-- Match the 8-4-4-4-12 lowercase-hex UUID body of the id regexes. -/
def isUuidChars (cs : List Char) : Bool :=
  (do
    let r ← hexRun 8 cs
    let r ← expectChar '-' r
    let r ← hexRun 4 r
    let r ← expectChar '-' r
    let r ← hexRun 4 r
    let r ← expectChar '-' r
    let r ← hexRun 4 r
    let r ← expectChar '-' r
    let r ← hexRun 12 r
    if r.isEmpty then some () else none).isSome

/-- Match `^<ns><uuid>$` where `ns` is a literal namespace and kind. -/
def isNamespacedId (ns : String) (s : String) : Bool :=
  let cs := s.toList
  let pcs := ns.toList
  decide (cs.take pcs.length = pcs) && isUuidChars (cs.drop pcs.length)

/-- Embedding of `validateAgentId` (identity.ts:93-96), which is also the
regex of `AgentIDSchema.id` (types.ts:21). -/
def validateAgentId (id : String) : Bool :=
  isNamespacedId "snap:agent:" id

/-- The regex of `UserIDSchema.id` (types.ts:8). -/
def validateUserIdFormat (id : String) : Bool :=
  isNamespacedId "snap:user:" id

/-- Digit test. -/
def isDigitChar (c : Char) : Bool :=
  '0' ≤ c && c ≤ '9'

/-- Consume exactly `n` digits. -/
def digitRun : Nat → List Char → Option (List Char)
  | 0, rest => some rest
  | _ + 1, [] => none
  | n + 1, c :: rest => if isDigitChar c then digitRun n rest else none

/-- Embedding of `z.string().datetime()` (zod's default UTC datetime regex:
four-digit year date, `T`, time, optional fractional seconds, literal `Z`). -/
def isISODatetime (s : String) : Bool :=
  (do
    let r ← digitRun 4 s.toList
    let r ← expectChar '-' r
    let r ← digitRun 2 r
    let r ← expectChar '-' r
    let r ← digitRun 2 r
    let r ← expectChar 'T' r
    let r ← digitRun 2 r
    let r ← expectChar ':' r
    let r ← digitRun 2 r
    let r ← expectChar ':' r
    let r ← digitRun 2 r
    match r with
    | ['Z'] => some ()
    | '.' :: rest =>
        let ds := rest.takeWhile isDigitChar
        if ds.isEmpty then none
        else
          match rest.drop ds.length with
          | ['Z'] => some ()
          | _ => none
    | _ => none).isSome

/-- Validate an optional URL field with the injected `z.string().url()`
checker (WHATWG URL parsing is external library behavior). -/
def validOptUrl (isUrl : String → Bool) : Option String → Bool
  | none => true
  | some u => isUrl u

/-- Mime types accepted by `ImagePartSchema` (types.ts:80). -/
def imageMimes : List String :=
  ["image/jpeg", "image/png", "image/gif", "image/webp"]

/-- Mime types accepted by `AudioPartSchema` (types.ts:99). -/
def audioMimes : List String :=
  ["audio/mpeg", "audio/wav", "audio/ogg", "audio/webm"]

/-- Mime types accepted by `VideoPartSchema` (types.ts:118). -/
def videoMimes : List String :=
  ["video/mp4", "video/webm", "video/quicktime"]

/-- Validation of one part, mirroring `PartSchema` (types.ts:134-141): text
and data parts have no refinements beyond their (typed) shape; file and media
parts require `uri` to be a URL when present and at least one of
`uri`/`bytes`; media parts restrict `mimeType` to an enum. -/
def validPart (isUrl : String → Bool) : Part → Bool
  | Part.text _ => true
  | Part.data _ => true
  | Part.file p =>
      validOptUrl isUrl p.content.uri &&
      (p.content.uri.isSome || p.content.bytes.isSome)
  | Part.image p =>
      validOptUrl isUrl p.content.uri &&
      imageMimes.contains p.content.mimeType &&
      (p.content.uri.isSome || p.content.bytes.isSome)
  | Part.audio p =>
      validOptUrl isUrl p.content.uri &&
      audioMimes.contains p.content.mimeType &&
      (p.content.uri.isSome || p.content.bytes.isSome)
  | Part.video p =>
      validOptUrl isUrl p.content.uri &&
      videoMimes.contains p.content.mimeType &&
      (p.content.uri.isSome || p.content.bytes.isSome)

/-- Validation of a message endpoint, mirroring the union
`AgentIDSchema | UserIDSchema` (types.ts:7-24). -/
def validParty (isUrl : String → Bool) : MsgParty → Bool
  | MsgParty.agent a => validateAgentId a.id && validOptUrl isUrl a.registry
  | MsgParty.user u => validateUserIdFormat u.id

/-- Validation of an optional endpoint. -/
def validOptParty (isUrl : String → Bool) : Option MsgParty → Bool
  | none => true
  | some p => validParty isUrl p

/-- Validation of a payment, mirroring `PaymentSchema` (types.ts:149-157):
positive amount, literal `SEMNET` currency, valid endpoints. -/
def validPayment (isUrl : String → Bool) (p : Payment) : Bool :=
  decide (0 < p.amount) && decide (p.currency = "SEMNET") &&
  validParty isUrl p.«from» && validParty isUrl p.«to»

/-- Validation of an optional payment. -/
def validOptPayment (isUrl : String → Bool) : Option Payment → Bool
  | none => true
  | some p => validPayment isUrl p

/-- Versions accepted by `SNAPMessageSchema.version` (types.ts:167). -/
def versions : List String := ["1.0", "1.1"]

/-- Validation of a whole message, mirroring `SNAPMessageSchema.parse`
(types.ts:165-176): version enum, valid endpoints, datetime timestamp,
at least one valid part, valid payment when present. -/
def validMessage (isUrl : String → Bool) (m : SNAPMessage) : Bool :=
  versions.contains m.version &&
  validParty isUrl m.«from» &&
  validOptParty isUrl m.«to» &&
  isISODatetime m.timestamp &&
  decide (1 ≤ m.parts.length) &&
  m.parts.all (validPart isUrl) &&
  validOptPayment isUrl m.payment

/-- Builder constructor (index.ts:96-104, also `createMessage`): the fresh
message id and the current timestamp are explicit arguments (the source reads
`generateMessageId()` and `new Date().toISOString()`). -/
def createMessage (msgId now : String) (sender : AgentID) : SNAPMessage :=
  { id := msgId, version := "1.0", «from» := MsgParty.agent sender,
    timestamp := now, parts := [] }

/-- Internal setter shared by `.to` and `reply`: the runtime stores whatever
endpoint object it is given. -/
def MessageBuilder.toParty (st : SNAPMessage) (recipient : MsgParty) :
    SNAPMessage :=
  { st with «to» := some recipient }

/-- Builder `.to` (index.ts:109-112). -/
def MessageBuilder.«to» (st : SNAPMessage) (recipient : AgentID) : SNAPMessage :=
  MessageBuilder.toParty st (MsgParty.agent recipient)

/-- Builder `.context` (index.ts:117-120). -/
def MessageBuilder.context (st : SNAPMessage) (contextId : String) :
    SNAPMessage :=
  { st with context := some contextId }

/-- Builder `.payment` (index.ts:125-128). -/
def MessageBuilder.payment (st : SNAPMessage) (p : Payment) : SNAPMessage :=
  { st with payment := some p }

/-- Lookup in a record (first entry with the key). -/
def lookupRecord (k : String) : List (String × JValue) → Option JValue
  | [] => none
  | (k', v) :: t => if k' = k then some v else lookupRecord k t

/-- JavaScript object spread merge `{...a, ...b}`: keys of `a` in order with
values overridden by `b`, then the new keys of `b` in their order. -/
def recordMerge (a b : List (String × JValue)) : List (String × JValue) :=
  (a.map fun p =>
    match lookupRecord p.1 b with
    | some v => (p.1, v)
    | none => p) ++
  b.filter fun q => (lookupRecord q.1 a).isNone

/-- Builder `.metadata` (index.ts:133-136): merges into existing metadata. -/
def MessageBuilder.metadata (st : SNAPMessage)
    (md : List (String × JValue)) : SNAPMessage :=
  { st with metadata := some (recordMerge (st.metadata.getD []) md) }

/-- Options of the builder `.text` method (index.ts:141-145). -/
structure TextOptions where
  format : Option TextFormat := none
  language : Option String := none
  encoding : Option TextEncodingOpt := none

/-- Builder `.text` (index.ts:141-160): the part's `metadata` key is present
exactly when `options` is passed, `encoding` exactly when given. -/
def MessageBuilder.text (st : SNAPMessage) (content : String)
    (options : Option TextOptions) : SNAPMessage :=
  let part : TextPart :=
    { content := content,
      encoding := options.bind TextOptions.encoding,
      metadata := options.map fun o =>
        { format := o.format, language := o.language } }
  { st with parts := st.parts ++ [Part.text part] }

/-- Options of the builder `.data` method (index.ts:165-168). -/
structure DataOptions where
  schema : Option (List (String × JValue)) := none
  format : Option DataFormat := none

/-- Builder `.data` (index.ts:165-180): the part's `metadata` is present
exactly when a format option is given. -/
def MessageBuilder.data (st : SNAPMessage) (content : List (String × JValue))
    (options : Option DataOptions) : SNAPMessage :=
  let part : DataPart :=
    { content := content,
      schema := options.bind DataOptions.schema,
      metadata := (options.bind DataOptions.format).map fun f =>
        { format := some f, encoding := none } }
  { st with parts := st.parts ++ [Part.data part] }

/-- Builder `.file` (index.ts:185-205): metadata present exactly when a
description option is given. -/
def MessageBuilder.file (st : SNAPMessage) (content : FileContent)
    (description : Option String) : SNAPMessage :=
  let part : FilePart :=
    { content := content,
      metadata := description.map fun d => { description := some d } }
  { st with parts := st.parts ++ [Part.file part] }

/-- Builder `.image` (index.ts:210-230): metadata present exactly when a
caption option is given. -/
def MessageBuilder.image (st : SNAPMessage) (content : ImageContent)
    (caption : Option String) : SNAPMessage :=
  let part : ImagePart :=
    { content := content,
      metadata := caption.map fun c => { caption := some c } }
  { st with parts := st.parts ++ [Part.image part] }

/-- Builder `.audio` (index.ts:235-258): metadata present exactly when an
options object is passed. -/
def MessageBuilder.audio (st : SNAPMessage) (content : AudioContent)
    (options : Option AudioMeta) : SNAPMessage :=
  let part : AudioPart := { content := content, metadata := options }
  { st with parts := st.parts ++ [Part.audio part] }

/-- Builder `.video` (index.ts:263-288): metadata present exactly when an
options object is passed. -/
def MessageBuilder.video (st : SNAPMessage) (content : VideoContent)
    (options : Option VideoMeta) : SNAPMessage :=
  let part : VideoPart := { content := content, metadata := options }
  { st with parts := st.parts ++ [Part.video part] }

/-- Builder `.part` (index.ts:293-296). -/
def MessageBuilder.part (st : SNAPMessage) (p : Part) : SNAPMessage :=
  { st with parts := st.parts ++ [p] }

/-- Builder `.id` (index.ts:301-304). -/
def MessageBuilder.setId (st : SNAPMessage) (messageId : String) : SNAPMessage :=
  { st with id := messageId }

/-- Builder `.timestamp` (index.ts:309-312). -/
def MessageBuilder.setTimestamp (st : SNAPMessage) (ts : String) : SNAPMessage :=
  { st with timestamp := ts }

/-- Builder `.build` (index.ts:317-324): explicit empty-parts check first,
then `SNAPMessageSchema.parse` (which on success returns the same field
values); both failures are thrown errors, modelled as `Except.error`. -/
def MessageBuilder.build (isUrl : String → Bool) (st : SNAPMessage) :
    Except String SNAPMessage :=
  if st.parts.isEmpty then
    Except.error "Message must have at least one part"
  else if validMessage isUrl st then
    Except.ok st
  else
    Except.error "invalid message"

/-- Removal of the `signature` key (`const {signature, ...rest}` in
index.ts:331). -/
def stripSignature (m : SNAPMessage) : SNAPMessage :=
  { m with signature := none }

/-- Builder `.buildForSigning` (index.ts:329-333): build, then drop the
signature field; a build failure propagates. -/
def MessageBuilder.buildForSigning (isUrl : String → Bool)
    (st : SNAPMessage) : Except String SNAPMessage :=
  (MessageBuilder.build isUrl st).map stripSignature

/-- One builder method call with its arguments, for quantifying over call
sequences. -/
inductive BuilderOp where
  | «to» (recipient : AgentID)
  | context (contextId : String)
  | payment (p : Payment)
  | metadata (md : List (String × JValue))
  | text (content : String) (options : Option TextOptions)
  | data (content : List (String × JValue)) (options : Option DataOptions)
  | file (content : FileContent) (description : Option String)
  | image (content : ImageContent) (caption : Option String)
  | audio (content : AudioContent) (options : Option AudioMeta)
  | video (content : VideoContent) (options : Option VideoMeta)
  | part (p : Part)
  | setId (messageId : String)
  | setTimestamp (ts : String)

/-- Apply one builder method call to the builder state. -/
def applyOp (st : SNAPMessage) : BuilderOp → SNAPMessage
  | BuilderOp.«to» r => MessageBuilder.«to» st r
  | BuilderOp.context c => MessageBuilder.context st c
  | BuilderOp.payment p => MessageBuilder.payment st p
  | BuilderOp.metadata md => MessageBuilder.metadata st md
  | BuilderOp.text c o => MessageBuilder.text st c o
  | BuilderOp.data c o => MessageBuilder.data st c o
  | BuilderOp.file c d => MessageBuilder.file st c d
  | BuilderOp.image c d => MessageBuilder.image st c d
  | BuilderOp.audio c o => MessageBuilder.audio st c o
  | BuilderOp.video c o => MessageBuilder.video st c o
  | BuilderOp.part p => MessageBuilder.part st p
  | BuilderOp.setId i => MessageBuilder.setId st i
  | BuilderOp.setTimestamp t => MessageBuilder.setTimestamp st t

/-- Whether a builder method call is part-adding. -/
def addsPart : BuilderOp → Bool
  | BuilderOp.text _ _ => true
  | BuilderOp.data _ _ => true
  | BuilderOp.file _ _ => true
  | BuilderOp.image _ _ => true
  | BuilderOp.audio _ _ => true
  | BuilderOp.video _ _ => true
  | BuilderOp.part _ => true
  | _ => false

theorem applyOp_parts_of_not_addsPart (st : SNAPMessage) (op : BuilderOp)
    (h : addsPart op = false) : (applyOp st op).parts = st.parts := by
  cases op <;> first
    | rfl
    | exact absurd h (by simp [addsPart])

theorem foldl_applyOp_parts (ops : List BuilderOp) (st : SNAPMessage)
    (h : ∀ op ∈ ops, addsPart op = false) :
    (ops.foldl applyOp st).parts = st.parts := by
  induction ops generalizing st with
  | nil => rfl
  | cons op t ih =>
      rw [List.foldl_cons, ih _ (fun x hx => h x (List.mem_cons_of_mem op hx)),
        applyOp_parts_of_not_addsPart st op (h op (List.mem_cons_self op t))]

/-- Claim C6: on every builder on which zero part-adding calls have been made
(whatever other envelope fields were set through other calls, in any order),
`build()` always fails with the validation error for empty parts and never
returns a message. -/
theorem build_empty_parts_fails (isUrl : String → Bool) (msgId now : String)
    (sender : AgentID) (ops : List BuilderOp)
    (h : ∀ op ∈ ops, addsPart op = false) :
    MessageBuilder.build isUrl
        (ops.foldl applyOp (createMessage msgId now sender))
      = Except.error "Message must have at least one part" := by
  have hp : (ops.foldl applyOp (createMessage msgId now sender)).parts = [] :=
    foldl_applyOp_parts ops _ h
  unfold MessageBuilder.build
  rw [hp]
  rfl

/-- Agent identity used in concrete instantiations. -/
def agentA : AgentID := { id := "snap:agent:11111111-2222-4333-8444-555555555555" }

/-- Second agent identity used in concrete instantiations. -/
def agentB : AgentID := { id := "snap:agent:aaaaaaaa-bbbb-4ccc-8ddd-eeeeeeeeeeee" }

/-- URL checker accepting everything, a concrete stand-in for the external
`z.string().url()`. -/
def anyUrl : String → Bool := fun _ => true

/-- Concrete timestamp in the `z.string().datetime()` format. -/
def ts0 : String := "2025-01-01T00:00:00Z"

/-- Concrete non-part-adding builder call sequence. -/
def c6Ops : List BuilderOp :=
  [BuilderOp.«to» agentB, BuilderOp.context "ctx_1", BuilderOp.setId "msg_2",
   BuilderOp.metadata [("k", JValue.str "v")]]

/-- Witness for claim C6 at a concrete call sequence setting recipient,
context, id and metadata but adding no part. -/
theorem build_empty_parts_fails_witness :
    (∀ op ∈ c6Ops, addsPart op = false) ∧
    MessageBuilder.build anyUrl (c6Ops.foldl applyOp (createMessage "msg_1" ts0 agentA))
      = Except.error "Message must have at least one part" := by
  have h : ∀ op ∈ c6Ops, addsPart op = false := by decide
  exact ⟨h, build_empty_parts_fails anyUrl "msg_1" ts0 agentA c6Ops h⟩

/-- Claim C7: whenever `build()` succeeds, `buildForSigning()` returns the
same built message with the `signature` field absent and agrees with
`build()` on every other field. -/
theorem buildForSigning_agrees (isUrl : String → Bool) (st m : SNAPMessage)
    (h : MessageBuilder.build isUrl st = Except.ok m) :
    MessageBuilder.buildForSigning isUrl st = Except.ok (stripSignature m) ∧
    (stripSignature m).signature = none ∧
    (stripSignature m).id = m.id ∧ (stripSignature m).version = m.version ∧
    (stripSignature m).«from» = m.«from» ∧ (stripSignature m).«to» = m.«to» ∧
    (stripSignature m).timestamp = m.timestamp ∧
    (stripSignature m).parts = m.parts ∧
    (stripSignature m).context = m.context ∧
    (stripSignature m).payment = m.payment ∧
    (stripSignature m).metadata = m.metadata := by
  unfold MessageBuilder.buildForSigning
  rw [h]
  exact ⟨rfl, rfl, rfl, rfl, rfl, rfl, rfl, rfl, rfl, rfl, rfl⟩

/-- Concrete builder state with one text part. -/
def c7Builder : SNAPMessage :=
  MessageBuilder.text (createMessage "msg_1" ts0 agentA) "hello" none

/-- Witness for claim C7 at a concrete successfully building builder. -/
theorem buildForSigning_agrees_witness :
    MessageBuilder.build anyUrl c7Builder = Except.ok c7Builder ∧
    MessageBuilder.buildForSigning anyUrl c7Builder
      = Except.ok (stripSignature c7Builder) := by
  have h : MessageBuilder.build anyUrl c7Builder = Except.ok c7Builder := rfl
  exact ⟨h, (buildForSigning_agrees anyUrl c7Builder c7Builder h).1⟩

/-- JavaScript `a || b` on an optional string: the empty string is falsy. -/
def jsOrString (o : Option String) (d : String) : String :=
  match o with
  | some s => if s = "" then d else s
  | none => d

/-- Embedding of `MessageUtils.reply` (index.ts:457-465): seed a new builder
with recipient `original.from`, context `original.context || original.id`
(JavaScript truthiness) and reply metadata; parts are not copied. -/
def MessageUtils.reply (msgId now : String) (originalMessage : SNAPMessage)
    (sender : AgentID) : SNAPMessage :=
  MessageBuilder.metadata
    (MessageBuilder.context
      (MessageBuilder.toParty (createMessage msgId now sender)
        originalMessage.«from»)
      (jsOrString originalMessage.context originalMessage.id))
    [("replyTo", JValue.str originalMessage.id), ("type", JValue.str "reply")]

/-- Concrete original message whose `context` is present but empty. -/
def c8Original : SNAPMessage :=
  { id := "msg_orig", version := "1.0", «from» := MsgParty.agent agentB,
    timestamp := ts0, parts := [Part.text { content := "hi" }],
    context := some "" }

/-- Counterexample to claim C8 as stated: on an original message whose
`context` is present (the empty string), the seeded builder's context is the
original message id, not the original context. -/
theorem reply_context_counterexample :
    c8Original.context = some "" ∧
    (MessageUtils.reply "msg_r" ts0 c8Original agentA).context
      = some "msg_orig" ∧
    (some "msg_orig" : Option String) ≠ some "" := by
  exact ⟨rfl, rfl, by decide⟩

/-- Claim C8 (amended): `reply(original, from)` seeds a builder with
recipient `original.from`, context equal to `original.context` when present
and non-empty — an empty-string context falls back to `original.id`, as does
an absent one (JavaScript `||`) — reply metadata `replyTo = original.id` and
`type = "reply"`, and none of the original's parts. -/
theorem reply_seeds_builder (msgId now : String) (original : SNAPMessage)
    (sender : AgentID) :
    (MessageUtils.reply msgId now original sender).«to» = some original.«from» ∧
    (MessageUtils.reply msgId now original sender).context =
      some (match original.context with
        | some c => if c = "" then original.id else c
        | none => original.id) ∧
    (MessageUtils.reply msgId now original sender).parts = [] ∧
    (MessageUtils.reply msgId now original sender).metadata =
      some [("replyTo", JValue.str original.id),
            ("type", JValue.str "reply")] ∧
    (MessageUtils.reply msgId now original sender).«from»
      = MsgParty.agent sender ∧
    (MessageUtils.reply msgId now original sender).id = msgId ∧
    (MessageUtils.reply msgId now original sender).timestamp = now := by
  refine ⟨rfl, ?_, rfl, rfl, rfl, rfl, rfl⟩
  simp only [MessageUtils.reply, MessageBuilder.metadata, MessageBuilder.context,
    MessageBuilder.toParty, createMessage]
  rcases hc : original.context with _ | c <;> simp [jsOrString, hc]

/-- Embedding of `MessageUtils.paymentRequest` (index.ts:470-489): envelope
from the requester to the payer, one text part with the description, and an
attached pending payment whose `from` is the message recipient and whose `to`
is the message sender, with the description as memo. -/
def MessageUtils.paymentRequest (isUrl : String → Bool) (msgId now : String)
    (sender recipient : AgentID) (amount : Rat) (description : String) :
    Except String SNAPMessage :=
  let pay : Payment :=
    { amount := amount, currency := "SEMNET",
      «from» := MsgParty.agent recipient, «to» := MsgParty.agent sender,
      memo := some description, status := some PaymentStatus.pending }
  MessageBuilder.build isUrl
    (MessageBuilder.metadata
      (MessageBuilder.payment
        (MessageBuilder.text
          (MessageBuilder.«to» (createMessage msgId now sender) recipient)
          description none)
        pay)
      [("type", JValue.str "payment-request")])

/-- The message that `paymentRequest` is expected to build. -/
def paymentRequestResult (msgId now : String) (sender recipient : AgentID)
    (amount : Rat) (description : String) : SNAPMessage :=
  { id := msgId, version := "1.0", «from» := MsgParty.agent sender,
    «to» := some (MsgParty.agent recipient), timestamp := now,
    parts := [Part.text { content := description }],
    payment := some
      { amount := amount, currency := "SEMNET",
        «from» := MsgParty.agent recipient, «to» := MsgParty.agent sender,
        memo := some description, status := some PaymentStatus.pending },
    metadata := some [("type", JValue.str "payment-request")] }

/-- Claim C10: for valid sender and recipient, positive amount and a current
timestamp, `paymentRequest(a, b, amount, description)` returns a message sent
from `a` to `b` whose attached payment has `payment.from = b` and
`payment.to = a` (the payer of the requested payment is the message's
recipient, the payee its sender), with status `pending` and the description
as both the text part and the memo (see `paymentRequestResult`). -/
theorem paymentRequest_swaps_payer (isUrl : String → Bool)
    (msgId now : String) (sender recipient : AgentID) (amount : Rat)
    (description : String)
    (hs : validParty isUrl (MsgParty.agent sender) = true)
    (hr : validParty isUrl (MsgParty.agent recipient) = true)
    (hamt : 0 < amount) (hnow : isISODatetime now = true) :
    MessageUtils.paymentRequest isUrl msgId now sender recipient amount
        description =
      Except.ok (paymentRequestResult msgId now sender recipient amount
        description) := by
  have hvalid : validMessage isUrl
      (paymentRequestResult msgId now sender recipient amount description)
      = true := by
    simp [paymentRequestResult, validMessage, versions, validOptParty,
      validOptPayment, validPayment, validPart, hs, hr, hnow, hamt]
  show MessageBuilder.build isUrl
      (paymentRequestResult msgId now sender recipient amount description)
    = Except.ok (paymentRequestResult msgId now sender recipient amount
        description)
  simp only [MessageBuilder.build, hvalid]
  simp [paymentRequestResult]

/-- Witness for claim C10 at concrete identities and amount. -/
theorem paymentRequest_swaps_payer_witness :
    validParty anyUrl (MsgParty.agent agentA) = true ∧
    validParty anyUrl (MsgParty.agent agentB) = true ∧
    (0 : Rat) < 5 ∧ isISODatetime ts0 = true ∧
    MessageUtils.paymentRequest anyUrl "msg_p" ts0 agentA agentB 5 "svc"
      = Except.ok (paymentRequestResult "msg_p" ts0 agentA agentB 5 "svc") := by
  have hs : validParty anyUrl (MsgParty.agent agentA) = true := by decide
  have hr : validParty anyUrl (MsgParty.agent agentB) = true := by decide
  have hamt : (0 : Rat) < 5 := by decide
  have hnow : isISODatetime ts0 = true := by decide
  exact ⟨hs, hr, hamt, hnow,
    paymentRequest_swaps_payer anyUrl "msg_p" ts0 agentA agentB 5 "svc"
      hs hr hamt hnow⟩

/-- Task status enum (types.ts:338-344). -/
inductive TaskStatus where
  | queued
  | processing
  | completed
  | failed
  | cancelled
deriving DecidableEq

/-- Task record (types.ts:346-359). -/
structure Task where
  id : String
  status : TaskStatus
  progress : Option Rat := none
  message : Option String := none
  result : Option SNAPMessage := none
  error : Option String := none
  createdAt : String
  updatedAt : String
  estimatedCompletion : Option String := none
  metadata : Option (List (String × JValue)) := none

/-- Task update record (types.ts:371-381).  JavaScript distinguishes an
absent key from a key present with value `undefined`, and the spread
`{...task, ...update}` overwrites with `undefined` when the key is present:
the outer `Option` is key presence, the inner one the (possibly `undefined`)
value. -/
structure TaskUpdate where
  status : Option (Option TaskStatus) := none
  progress : Option (Option Rat) := none
  message : Option (Option String) := none
  result : Option (Option SNAPMessage) := none
  error : Option (Option String) := none
  estimatedCompletion : Option (Option String) := none
  metadata : Option (Option (List (String × JValue))) := none

/-- Effect of `{...task, ...update}` on one optional field. -/
def mergeField {α : Type} (u : Option (Option α)) (t : Option α) : Option α :=
  match u with
  | none => t
  | some v => v

/-- Validation of an optional value against a predicate (zod `optional`). -/
def validOpt {α : Type} (f : α → Bool) : Option α → Bool
  | none => true
  | some v => f v

/-- Range check of `TaskSchema.progress` (types.ts:349). -/
def progressInRange (p : Rat) : Bool :=
  decide (0 ≤ p) && decide (p ≤ 1)

/-- Validation of a `Task` against `TaskSchema` (types.ts:346-359): progress
within `[0,1]` when present, datetimes well-formed, the result a valid
message when present. -/
def validTask (isUrl : String → Bool) (t : Task) : Bool :=
  validOpt progressInRange t.progress &&
  validOpt (validMessage isUrl) t.result &&
  isISODatetime t.createdAt && isISODatetime t.updatedAt &&
  validOpt isISODatetime t.estimatedCompletion

/-- Validation of a present-and-defined update field (zod `optional` treats
both an absent key and `undefined` as valid). -/
def validUpdField {α : Type} (f : α → Bool) : Option (Option α) → Bool
  | some (some v) => f v
  | _ => true

/-- Validation of a `TaskUpdate` against `TaskUpdateSchema`
(types.ts:371-381). -/
def validTaskUpdate (isUrl : String → Bool) (u : TaskUpdate) : Bool :=
  validUpdField progressInRange u.progress &&
  validUpdField (validMessage isUrl) u.result &&
  validUpdField isISODatetime u.estimatedCompletion

/-- Embedding of `TaskManager.updateTask` (identity.ts:351-359): spread-merge
the update over the task, stamp `updatedAt` with the current time, and
revalidate with `TaskSchema.parse`, which throws (modelled as `Except.error`)
when the merged record is invalid — including when the required `status` was
overwritten with `undefined`.  There is no check that the current status
admits a transition. -/
def TaskManager.updateTask (isUrl : String → Bool) (now : String) (task : Task)
    (update : TaskUpdate) : Except String Task :=
  match mergeField update.status (some task.status) with
  | none => Except.error "invalid task: status required"
  | some st =>
      let merged : Task :=
        { id := task.id,
          status := st,
          progress := mergeField update.progress task.progress,
          message := mergeField update.message task.message,
          result := mergeField update.result task.result,
          error := mergeField update.error task.error,
          createdAt := task.createdAt,
          updatedAt := now,
          estimatedCompletion :=
            mergeField update.estimatedCompletion task.estimatedCompletion,
          metadata := mergeField update.metadata task.metadata }
      if validTask isUrl merged then Except.ok merged
      else Except.error "invalid task"

/-- Embedding of `TaskManager.startProcessing` (identity.ts:364-375); the
`message` and `estimatedCompletion` keys are always present in the update
object (possibly `undefined`). -/
def TaskManager.startProcessing (isUrl : String → Bool) (now : String)
    (task : Task) (message : Option String)
    (estimatedCompletion : Option String) : Except String Task :=
  TaskManager.updateTask isUrl now task
    { status := some (some TaskStatus.processing), progress := some (some 0),
      message := some message,
      estimatedCompletion := some estimatedCompletion }

/-- Embedding of `TaskManager.updateProgress` (identity.ts:380-389):
`Math.max(0, Math.min(1, progress))`. -/
def TaskManager.updateProgress (isUrl : String → Bool) (now : String)
    (task : Task) (progress : Rat) (message : Option String) :
    Except String Task :=
  TaskManager.updateTask isUrl now task
    { progress := some (some (max 0 (min 1 progress))),
      message := some message }

/-- Embedding of `TaskManager.complete` (identity.ts:394-401). -/
def TaskManager.complete (isUrl : String → Bool) (now : String) (task : Task)
    (result : SNAPMessage) : Except String Task :=
  TaskManager.updateTask isUrl now task
    { status := some (some TaskStatus.completed), progress := some (some 1),
      result := some (some result),
      message := some (some "Task completed successfully") }

/-- Embedding of `TaskManager.fail` (identity.ts:406-412). -/
def TaskManager.fail (isUrl : String → Bool) (now : String) (task : Task)
    (error : String) : Except String Task :=
  TaskManager.updateTask isUrl now task
    { status := some (some TaskStatus.failed), error := some (some error),
      message := some (some "Task failed") }

/-- Embedding of `TaskManager.cancel` (identity.ts:417-423): the message is
`reason || 'Task cancelled'` and the `error` key is present with the
(possibly `undefined`) reason. -/
def TaskManager.cancel (isUrl : String → Bool) (now : String) (task : Task)
    (reason : Option String) : Except String Task :=
  TaskManager.updateTask isUrl now task
    { status := some (some TaskStatus.cancelled),
      message := some (some (jsOrString reason "Task cancelled")),
      error := some reason }

/-- Embedding of `TaskManager.isActive` (identity.ts:428-430). -/
def TaskManager.isActive (task : Task) : Bool :=
  task.status = TaskStatus.queued || task.status = TaskStatus.processing

theorem mergeField_none {α : Type} (u : Option (Option α)) (t : Option α)
    (h : u = none) : mergeField u t = t := by rw [h]; rfl

theorem mergeField_some {α : Type} (u : Option (Option α)) (t : Option α)
    (v : Option α) (h : u = some v) : mergeField u t = v := by rw [h]; rfl

theorem validOpt_mergeField {α : Type} (f : α → Bool) (u : Option (Option α))
    (t : Option α) (ht : validOpt f t = true) (hu : validUpdField f u = true) :
    validOpt f (mergeField u t) = true := by
  cases u with
  | none => exact ht
  | some v =>
      cases v with
      | none => rfl
      | some x => exact hu

/-- Claim C5: for every valid task and every number `p`, `updateProgress`
returns a task (rather than an error) whose progress is `p` clamped to
`[0,1]`, leaving the status untouched. -/
theorem updateProgress_clamps (isUrl : String → Bool) (now : String)
    (task : Task) (p : Rat) (msg : Option String)
    (ht : validTask isUrl task = true) (hnow : isISODatetime now = true) :
    ∃ t', TaskManager.updateProgress isUrl now task p msg = Except.ok t' ∧
      t'.progress = some (max 0 (min 1 p)) ∧ t'.status = task.status := by
  unfold TaskManager.updateProgress TaskManager.updateTask
  simp only [mergeField]
  refine ⟨_, if_pos ?_, rfl, rfl⟩
  have hclamp : progressInRange (max 0 (min 1 p)) = true := by
    have h1 : (0 : Rat) ≤ max 0 (min 1 p) := le_max_left _ _
    have h2 : max 0 (min 1 p) ≤ 1 := max_le (by norm_num) (min_le_left _ _)
    simp [progressInRange, h1, h2]
  simp only [validTask, Bool.and_eq_true] at ht ⊢
  exact ⟨⟨⟨⟨hclamp, ht.1.1.1.2⟩, ht.1.1.2⟩, hnow⟩, ht.2⟩

/-- Concrete valid queued task. -/
def taskQueuedEx : Task :=
  { id := "task_1", status := TaskStatus.queued,
    createdAt := ts0, updatedAt := ts0 }

/-- Later concrete timestamp. -/
def ts1 : String := "2025-01-01T00:01:00Z"

/-- Witness for claim C5: progress `1.5` clamps to `1.0` and `-1` to `0.0`. -/
theorem updateProgress_clamps_witness :
    validTask anyUrl taskQueuedEx = true ∧ isISODatetime ts1 = true ∧
    (∃ t', TaskManager.updateProgress anyUrl ts1 taskQueuedEx (3 / 2) none
        = Except.ok t' ∧
      t'.progress = some 1 ∧ t'.status = taskQueuedEx.status) ∧
    (∃ t', TaskManager.updateProgress anyUrl ts1 taskQueuedEx (-1) none
        = Except.ok t' ∧
      t'.progress = some 0 ∧ t'.status = taskQueuedEx.status) := by
  have ht : validTask anyUrl taskQueuedEx = true := by decide
  have hnow : isISODatetime ts1 = true := by decide
  have h1 := updateProgress_clamps anyUrl ts1 taskQueuedEx (3 / 2) none ht hnow
  have h2 := updateProgress_clamps anyUrl ts1 taskQueuedEx (-1) none ht hnow
  have e1 : max (0 : Rat) (min 1 (3 / 2)) = 1 := by norm_num
  have e2 : max (0 : Rat) (min 1 (-1)) = 0 := by norm_num
  rw [e1] at h1
  rw [e2] at h2
  exact ⟨ht, hnow, h1, h2⟩

/-- Claim C9: for every valid task and every schema-valid update that does
not overwrite the required `status` with `undefined`, `updateTask` returns a
new task whose `updatedAt` is the injected current time, which takes each
field named in the update from the update and leaves every other field equal
to the input task's field (`id` and `createdAt` are never updatable); the
function is pure — the input task value is untouched, a fresh record is
built. -/
theorem updateTask_merges (isUrl : String → Bool) (now : String) (task : Task)
    (u : TaskUpdate) (ht : validTask isUrl task = true)
    (hu : validTaskUpdate isUrl u = true) (hs : u.status ≠ some none)
    (hnow : isISODatetime now = true) :
    ∃ t', TaskManager.updateTask isUrl now task u = Except.ok t' ∧
      t'.updatedAt = now ∧ t'.id = task.id ∧ t'.createdAt = task.createdAt ∧
      (u.status = none → t'.status = task.status) ∧
      (∀ s, u.status = some (some s) → t'.status = s) ∧
      (u.progress = none → t'.progress = task.progress) ∧
      (∀ v, u.progress = some v → t'.progress = v) ∧
      (u.message = none → t'.message = task.message) ∧
      (∀ v, u.message = some v → t'.message = v) ∧
      (u.result = none → t'.result = task.result) ∧
      (∀ v, u.result = some v → t'.result = v) ∧
      (u.error = none → t'.error = task.error) ∧
      (∀ v, u.error = some v → t'.error = v) ∧
      (u.estimatedCompletion = none →
        t'.estimatedCompletion = task.estimatedCompletion) ∧
      (∀ v, u.estimatedCompletion = some v → t'.estimatedCompletion = v) ∧
      (u.metadata = none → t'.metadata = task.metadata) ∧
      (∀ v, u.metadata = some v → t'.metadata = v) := by
  simp only [validTask, Bool.and_eq_true] at ht
  simp only [validTaskUpdate, Bool.and_eq_true] at hu
  rcases hst : u.status with _ | ost
  · unfold TaskManager.updateTask
    rw [hst]
    simp only [mergeField]
    refine ⟨_, if_pos ?_, rfl, rfl, rfl, fun _ => rfl,
      fun s h => Option.noConfusion h,
      fun h => mergeField_none _ _ h, fun v h => mergeField_some _ _ _ h,
      fun h => mergeField_none _ _ h, fun v h => mergeField_some _ _ _ h,
      fun h => mergeField_none _ _ h, fun v h => mergeField_some _ _ _ h,
      fun h => mergeField_none _ _ h, fun v h => mergeField_some _ _ _ h,
      fun h => mergeField_none _ _ h, fun v h => mergeField_some _ _ _ h,
      fun h => mergeField_none _ _ h, fun v h => mergeField_some _ _ _ h⟩
    simp only [validTask, Bool.and_eq_true]
    exact ⟨⟨⟨⟨validOpt_mergeField _ _ _ ht.1.1.1.1 hu.1.1,
      validOpt_mergeField _ _ _ ht.1.1.1.2 hu.1.2⟩, ht.1.1.2⟩, hnow⟩,
      validOpt_mergeField _ _ _ ht.2 hu.2⟩
  · cases ost with
    | none => exact absurd hst hs
    | some s =>
        unfold TaskManager.updateTask
        rw [hst]
        simp only [mergeField]
        refine ⟨_, if_pos ?hv, rfl, rfl, rfl,
          fun h => Option.noConfusion h,
          fun s' h => ?hinj,
          fun h => mergeField_none _ _ h, fun v h => mergeField_some _ _ _ h,
          fun h => mergeField_none _ _ h, fun v h => mergeField_some _ _ _ h,
          fun h => mergeField_none _ _ h, fun v h => mergeField_some _ _ _ h,
          fun h => mergeField_none _ _ h, fun v h => mergeField_some _ _ _ h,
          fun h => mergeField_none _ _ h, fun v h => mergeField_some _ _ _ h,
          fun h => mergeField_none _ _ h, fun v h => mergeField_some _ _ _ h⟩
        case hv =>
          simp only [validTask, Bool.and_eq_true]
          exact ⟨⟨⟨⟨validOpt_mergeField _ _ _ ht.1.1.1.1 hu.1.1,
            validOpt_mergeField _ _ _ ht.1.1.1.2 hu.1.2⟩, ht.1.1.2⟩, hnow⟩,
            validOpt_mergeField _ _ _ ht.2 hu.2⟩
        case hinj =>
          injection h with h1
          injection h1 with h2

/-- Concrete schema-valid update touching three fields. -/
def c9Update : TaskUpdate :=
  { status := some (some TaskStatus.processing),
    progress := some (some 1), message := some (some "halfway") }

/-- Witness for claim C9 at a concrete task and update. -/
theorem updateTask_merges_witness :
    validTask anyUrl taskQueuedEx = true ∧
    validTaskUpdate anyUrl c9Update = true ∧
    c9Update.status ≠ some none ∧ isISODatetime ts1 = true ∧
    (∃ t', TaskManager.updateTask anyUrl ts1 taskQueuedEx c9Update
        = Except.ok t' ∧
      t'.updatedAt = ts1 ∧ t'.id = taskQueuedEx.id ∧
      t'.createdAt = taskQueuedEx.createdAt ∧
      (c9Update.status = none → t'.status = taskQueuedEx.status) ∧
      (∀ s, c9Update.status = some (some s) → t'.status = s) ∧
      (c9Update.progress = none → t'.progress = taskQueuedEx.progress) ∧
      (∀ v, c9Update.progress = some v → t'.progress = v) ∧
      (c9Update.message = none → t'.message = taskQueuedEx.message) ∧
      (∀ v, c9Update.message = some v → t'.message = v) ∧
      (c9Update.result = none → t'.result = taskQueuedEx.result) ∧
      (∀ v, c9Update.result = some v → t'.result = v) ∧
      (c9Update.error = none → t'.error = taskQueuedEx.error) ∧
      (∀ v, c9Update.error = some v → t'.error = v) ∧
      (c9Update.estimatedCompletion = none →
        t'.estimatedCompletion = taskQueuedEx.estimatedCompletion) ∧
      (∀ v, c9Update.estimatedCompletion = some v →
        t'.estimatedCompletion = v) ∧
      (c9Update.metadata = none → t'.metadata = taskQueuedEx.metadata) ∧
      (∀ v, c9Update.metadata = some v → t'.metadata = v)) := by
  have ht : validTask anyUrl taskQueuedEx = true := by decide
  have hu : validTaskUpdate anyUrl c9Update = true := by decide
  have hs : c9Update.status ≠ some none := by decide
  have hnow : isISODatetime ts1 = true := by decide
  exact ⟨ht, hu, hs, hnow,
    updateTask_merges anyUrl ts1 taskQueuedEx c9Update ht hu hs hnow⟩

/-- Concrete valid task in the terminal `completed` status. -/
def taskCompletedEx : Task :=
  { id := "task_1", status := TaskStatus.completed, progress := some 1,
    message := some "Task completed successfully",
    createdAt := ts0, updatedAt := ts1 }

/-- Claim C1, evaluated at the failing input: the task transitions perform no
legality check, so `fail` applied to a valid task already in the terminal
`completed` status does not reject and does not leave status/result/error
unchanged — it silently returns a task whose status is `failed` and whose
error is set, switching one terminal outcome to another. -/
theorem fail_overwrites_completed :
    validTask anyUrl taskCompletedEx = true ∧
    taskCompletedEx.status = TaskStatus.completed ∧
    (TaskManager.fail anyUrl ts1 taskCompletedEx "boom").toOption.map
        Task.status = some TaskStatus.failed ∧
    (TaskManager.fail anyUrl ts1 taskCompletedEx "boom").toOption.map
        Task.error = some (some "boom") := by
  exact ⟨by decide, rfl, rfl, rfl⟩

end SNAP
